import Mathlib

/-!
# Shallow embedding of the `frntnd-communicator` registration / dispatch core

This file embeds, as executable Lean definitions, the parts of the
`frntnd-communicator` JavaScript library that the verified properties talk
about:

* the JavaScript value fragment the validators inspect (`JVal`, `jTypeof`,
  `jTruthy`), faithful to `typeof` quirks such as `typeof null = "object"`;
* the `Adapter` class (`src/lib/classes/Adapter.js`): capability slots with
  warning-and-resolve stand-ins for missing slots, and the uniqueness-guarded
  static `register`;
* the `Connection` class (`src/lib/classes/Connection.js`): the
  `validateImplementation` field checks, the connect state machine with
  coalescing of concurrent connects, `disconnect`, and the
  `request`/verb-helper dispatch pipeline with resolve/reject hook handling;
* the `Request` class (`src/lib/classes/Request.js`, the module version of the
  class, i.e. the first class in that file): idempotent-by-name registration,
  `validateImplementation`, the `execute` connection guard, and the default
  resolve/reject passthrough methods;
* the `Communicator` facade (`src/lib/classes/Communicator.js`):
  `registerConnection` and its `config.defaultConnection` bookkeeping.

Registries (the `singletons/adapters`, `singletons/connections`,
`singletons/requests` and `singletons/config` modules, each a plain mutable
object) are modelled as association lists from names to instance identifiers
inside an explicit state record; instance identity is a `Nat` id, so
"reference-equal" becomes "equal id".

Promises are modelled by their settlement (`POutcome`): the code under
verification only ever forwards or transforms settled outcomes, and the
asynchronous connect attempt is modelled by an explicit settlement step
parameterised by the attempt outcome.
-/

/-- The fragment of JavaScript values the validators and guards inspect.
`obj` is a plain (non-class) object, `connRef`/`adapterRef` are instances of
the `Connection`/`Adapter` classes carrying their identity. -/
inductive JVal where
  | undef
  | null
  | str (s : String)
  | num (n : Int)
  | bool (b : Bool)
  | obj (id : Nat)
  | connRef (id : Nat)
  | adapterRef (id : Nat)
  deriving Repr, DecidableEq

/-- JavaScript `typeof`; note `typeof null = "object"`. -/
def jTypeof : JVal → String
  | .undef => "undefined"
  | .null => "object"
  | .str _ => "string"
  | .num _ => "number"
  | .bool b => if b then "boolean" else "boolean"
  | .obj _ => "object"
  | .connRef _ => "object"
  | .adapterRef _ => "object"

/-- JavaScript truthiness for the fragment. The empty string and `0` are
falsy; every object is truthy. -/
def jTruthy : JVal → Bool
  | .undef => false
  | .null => false
  | .str s => s ≠ ""
  | .num n => n ≠ 0
  | .bool b => b
  | .obj _ => true
  | .connRef _ => true
  | .adapterRef _ => true

/-- Settlement of a promise: resolved or rejected, with its payload. -/
inductive POutcome where
  | resolved (v : JVal)
  | rejected (v : JVal)
  deriving Repr, DecidableEq

/-- A value returned from a `.then` handler: either a plain value (the
resulting promise resolves with it) or a promise (the resulting promise
adopts its settlement). -/
inductive PendingResult where
  | value (v : JVal)
  | promise (o : POutcome)
  deriving Repr, DecidableEq

/-- Settlement of the promise produced by a `.then` handler returning
a `PendingResult`. -/
def PendingResult.settle : PendingResult → POutcome
  | .value v => .resolved v
  | .promise o => o

/-- Name-keyed registry: an association list from names to instance ids,
modelling the plain-object singletons `adapters`, `connections` and
`requests`. -/
abbrev Registry := List (String × Nat)

/-- Registry lookup (`registry[name]`; `none` plays `undefined`). -/
def Registry.find : Registry → String → Option Nat
  | [], _ => none
  | (k, v) :: rest, name => if k = name then some v else Registry.find rest name

/-- Registry insertion (`registry[name] = instance`). The source only ever
inserts names that are absent, so prepending is a faithful model. -/
def Registry.insert (r : Registry) (name : String) (id : Nat) : Registry :=
  (name, id) :: r

theorem Registry.find_insert_self (r : Registry) (name : String) (id : Nat) :
    (r.insert name id).find name = some id := by
  simp [Registry.insert, Registry.find]

theorem Registry.find_insert_ne (r : Registry) (name n : String) (id : Nat)
    (h : name ≠ n) : (r.insert name id).find n = r.find n := by
  simp [Registry.insert, Registry.find, h]

section ConnectionValidation

/-! ## `Connection.validateImplementation` (`src/lib/classes/Connection.js`) -/

/-- The property bag handed to `new Connection(options)`; the fields the
validator inspects. -/
structure ConnOptions where
  name : JVal
  adapter : JVal
  url : JVal
  deriving Repr, DecidableEq

/-- The two `Connection` exception kinds
(`ConnectionMissingPropertyException` / `ConnectionInvalidPropertyException`)
with the message of the throw site. -/
inductive ConnErr where
  | missing (msg : String)
  | invalid (msg : String)
  deriving Repr, DecidableEq

/-- `Connection.validateImplementation(options)`: field-by-field checks in
source order — name presence, name type, adapter presence, adapter type,
adapter registered, url presence, url type. `adapters` is the adapter
registry consulted by the cross-reference check. -/
def Connection.validateImplementation (adapters : Registry) (o : ConnOptions) :
    Option ConnErr :=
  if o.name = .undef ∨ o.name = .null then
    some (.missing "no name provided")
  else if jTypeof o.name ≠ "string" then
    some (.invalid "name is not a string")
  else if o.adapter = .undef ∨ o.adapter = .null then
    some (.missing "no adapter provided")
  else if jTypeof o.adapter ≠ "string" then
    some (.invalid "adapter is not a string")
  else if (match o.adapter with
           | .str s => (adapters.find s).isNone
           | _ => true) then
    some (.invalid "adapter is not a registered adapter")
  else if o.url = .undef ∨ o.url = .null then
    some (.missing "no url provided")
  else if jTypeof o.url ≠ "string" then
    some (.invalid "url is not a string")
  else
    none

/-- One validation rule: a violation test together with the error it raises. -/
structure ConnCheck where
  violated : ConnOptions → Bool
  err : ConnErr

/-- First violated rule of an ordered rule list. -/
def firstViolated (checks : List ConnCheck) (o : ConnOptions) : Option ConnErr :=
  match checks with
  | [] => none
  | c :: rest => if c.violated o then some c.err else firstViolated rest o

/-- The validation order the code actually implements, written as an ordered
rule list: per-field (name, adapter, url), presence before type, the
adapter's cross-reference after its type check, and no uniqueness rule at
all. This is the specification-side description against which
`Connection.validateImplementation` is compared. -/
def connValidationOrder (adapters : Registry) : List ConnCheck :=
  [ ⟨fun o => o.name = .undef ∨ o.name = .null, .missing "no name provided"⟩,
    ⟨fun o => jTypeof o.name ≠ "string", .invalid "name is not a string"⟩,
    ⟨fun o => o.adapter = .undef ∨ o.adapter = .null, .missing "no adapter provided"⟩,
    ⟨fun o => jTypeof o.adapter ≠ "string", .invalid "adapter is not a string"⟩,
    ⟨fun o => (match o.adapter with
               | .str s => (adapters.find s).isNone
               | _ => true), .invalid "adapter is not a registered adapter"⟩,
    ⟨fun o => o.url = .undef ∨ o.url = .null, .missing "no url provided"⟩,
    ⟨fun o => jTypeof o.url ≠ "string", .invalid "url is not a string"⟩ ]

end ConnectionValidation

section AdapterModel

/-! ## `Adapter` (`src/lib/classes/Adapter.js`) -/

/-- The wire object `Connection._prepareRequest` builds and hands to
`Adapter.request` / `Adapter.upload`:
`{url, method, data, request}` (the `request` field is the originating
blueprint, carried here as an opaque id). -/
structure PreparedReq where
  url : String
  method : JVal
  data : JVal
  requestRef : Nat
  deriving Repr, DecidableEq

/-- An adapter implementation: the six capability slots of the options
object handed to `new Adapter(options)`. A `none` slot models an omitted
capability (`options[key]` undefined, hence falsy). Capability behaviours
are pure functions from their argument to the settlement of the promise
they return. -/
structure AdapterImpl where
  name : String
  connect : Option (JVal → POutcome) := none
  disconnect : Option (JVal → POutcome) := none
  request : Option (PreparedReq → POutcome) := none
  upload : Option (PreparedReq → POutcome) := none
  subscribe : Option (JVal → POutcome) := none
  unsubscribe : Option (JVal → POutcome) := none

/-- `resolveFn(method, options)` from `Adapter.js`: the stand-in installed
for a missing capability. It logs a warning naming the capability and the
adapter and returns `Promise.resolve()` (resolved, no payload). The first
component is the console-warning log of the call. -/
def resolveFn (method : String) (adapterName : String) : List String × POutcome :=
  ([method ++ " method not implemented on adapter " ++ adapterName],
   .resolved .undef)

/-- `adapter.connect(url)`: pass-through to the `connect` slot, or the
`resolveFn` stand-in when the slot was omitted (the constructor line
`this[key] = this.options[key] || resolveFn(key, options)`). -/
def Adapter.callConnect (a : AdapterImpl) (url : JVal) : List String × POutcome :=
  match a.connect with
  | some f => ([], f url)
  | none => resolveFn "connect" a.name

/-- `adapter.disconnect(url)` with the missing-slot stand-in. -/
def Adapter.callDisconnect (a : AdapterImpl) (url : JVal) : List String × POutcome :=
  match a.disconnect with
  | some f => ([], f url)
  | none => resolveFn "disconnect" a.name

/-- `adapter.request(req)` with the missing-slot stand-in. -/
def Adapter.callRequest (a : AdapterImpl) (req : PreparedReq) : List String × POutcome :=
  match a.request with
  | some f => ([], f req)
  | none => resolveFn "request" a.name

/-- `adapter.upload(req)` with the missing-slot stand-in. -/
def Adapter.callUpload (a : AdapterImpl) (req : PreparedReq) : List String × POutcome :=
  match a.upload with
  | some f => ([], f req)
  | none => resolveFn "upload" a.name

/-- `adapter.subscribe(event)` with the missing-slot stand-in. -/
def Adapter.callSubscribe (a : AdapterImpl) (event : JVal) : List String × POutcome :=
  match a.subscribe with
  | some f => ([], f event)
  | none => resolveFn "subscribe" a.name

/-- `adapter.unsubscribe(event)` with the missing-slot stand-in. -/
def Adapter.callUnsubscribe (a : AdapterImpl) (event : JVal) : List String × POutcome :=
  match a.unsubscribe with
  | some f => ([], f event)
  | none => resolveFn "unsubscribe" a.name

/-- The error thrown by `Adapter.register` when the name is taken: a plain
`Error` whose message states that an adapter with this name already exists
(a name-uniqueness violation). -/
inductive AdapterRegErr where
  | duplicateName (name : String)
  deriving Repr, DecidableEq

/-- `Adapter.register(options)` (static, `src/lib/classes/Adapter.js`):
throws when `adapters[options.name]` is already set, otherwise constructs
and inserts a fresh instance. Returns the (possibly unchanged) adapter
registry together with the outcome; `nextId` supplies the fresh instance
identity. -/
def Adapter.register (adapters : Registry) (nextId : Nat) (name : String) :
    Registry × Except AdapterRegErr Nat :=
  if (adapters.find name).isSome then
    (adapters, .error (.duplicateName name))
  else
    (adapters.insert name nextId, .ok nextId)

end AdapterModel

section RequestModel

/-! ## `Request` (`src/lib/classes/Request.js`, the module class) -/

/-- JavaScript `String.prototype.toUpperCase`, character by character. -/
def jsToUpperCase (s : String) : String :=
  ⟨s.data.map Char.toUpper⟩

/-- `REQUEST_METHODS` (`src/lib/enums/REQUEST_METHODS.js`): truthiness of
`REQUEST_METHODS[m]` for an upper-cased method string. -/
def REQUEST_METHODS.mem (m : String) : Bool :=
  m = "POST" ∨ m = "PUT" ∨ m = "GET" ∨ m = "DELETE"

/-- A user-supplied resolve/reject hook: a function of the settled payload
whose return value a `.then` handler produces. -/
def Hook := JVal → PendingResult

/-- The property bag for `new Request(options)` / the blueprint handed to
`Connection.request`. Hooks are split off from the `JVal` fields the
validator inspects; `some h` models a function-valued `resolve`/`reject`
property and `none` its absence. The `upload` flag selects
`Adapter.upload` in `Connection.request`. -/
structure ReqOptions where
  name : JVal
  method : JVal
  route : JVal
  connection : JVal := .undef
  resolveHook : Option Hook := none
  rejectHook : Option Hook := none
  upload : Bool := false

/-- The distinct throw sites of `Request.validateImplementation` (each a
plain `Error` built by the local `throwError` helper, message abbreviated
to its reason). -/
inductive ReqErr where
  | nameNotString
  | methodNotString
  | invalidMethod (m : String)
  | routeNotString
  | connectionBadType
  | connectionNotFound
  deriving Repr, DecidableEq

/-- `Request.validateImplementation(options)` of the module class: name must
be a string; if a request with this name is already registered, validation
stops successfully (the existing instance will be returned); otherwise
method, route and — when truthy — the connection reference are checked.
`requests`/`connections` are the registries the checks consult. -/
def Request.validateImplementation (requests connections : Registry)
    (o : ReqOptions) : Option ReqErr :=
  if jTypeof o.name ≠ "string" then
    some .nameNotString
  else if (match o.name with
           | .str n => (requests.find n).isSome
           | _ => false) then
    none
  else if jTypeof o.method ≠ "string" then
    some .methodNotString
  else if (match o.method with
           | .str m => !(REQUEST_METHODS.mem (jsToUpperCase m))
           | _ => true) then
    some (.invalidMethod (match o.method with | .str m => m | _ => ""))
  else if jTypeof o.route ≠ "string" then
    some .routeNotString
  else if jTruthy o.connection then
    match o.connection with
    | .connRef _ => none
    | .str s => if (connections.find s).isSome then none else some .connectionNotFound
    | _ => some .connectionBadType
  else
    none

/-- `new Request(options)`: `_register` validates, inserts the new instance
only when the name is free, and returns `requests[options.name]`; the
constructor then returns that instance (the pre-existing one when the name
was taken). Result: the updated request registry, the next fresh id, and
either the thrown error or the id of the returned instance. -/
def Request.construct (requests connections : Registry) (nextId : Nat)
    (o : ReqOptions) : Registry × Nat × Except ReqErr Nat :=
  match Request.validateImplementation requests connections o with
  | some e => (requests, nextId, .error e)
  | none =>
    match o.name with
    | .str n =>
      match requests.find n with
      | some i => (requests, nextId, .ok i)
      | none => (requests.insert n nextId, nextId + 1, .ok nextId)
    | _ => (requests, nextId, .error .nameNotString)

/-- The constructed `Request` instance fields `execute` consults. The
`connection` field holds what the constructor bound: `connections[name]`
for a registered name, or the raw falsy options value when none was given. -/
structure RequestObj where
  id : Nat
  connection : JVal
  deriving Repr, DecidableEq

/-- `Request.prototype.resolve`, the default passthrough present on every
constructed instance: returns `Promise.resolve(data)`. -/
def Request.defaultResolve : Hook := fun v => .promise (.resolved v)

/-- `Request.prototype.reject`, the default passthrough present on every
constructed instance: returns `Promise.reject(data)`. -/
def Request.defaultReject : Hook := fun v => .promise (.rejected v)

/-- Outcome of `request.execute(data, connection)` up to the connection
guard: either the synchronous `Error` throw (before any adapter call), or
delegation to `connection.request(this, data)` on the effective target. -/
inductive ExecOutcome where
  | thrownNoConnection
  | dispatched (target : JVal) (data : JVal)
  deriving Repr, DecidableEq

/-- The effective connection `execute` works with: JavaScript
default-parameter semantics — the override argument when one is passed and
it is not `undefined`, else the instance's bound connection. -/
def effConn (self : RequestObj) (connArg : Option JVal) : JVal :=
  match connArg with
  | none => self.connection
  | some .undef => self.connection
  | some v => v

/-- `request.execute(data = {}, connection = this.connection)`: an omitted
or `undefined` connection argument falls back to the bound connection; the
guard throws when the effective connection is `null` or not of `typeof`
"object", and otherwise calls `connection.request(this, data)`. -/
def Request.execute (self : RequestObj) (data : JVal) (connArg : Option JVal) :
    ExecOutcome :=
  if effConn self connArg = .null ∨ jTypeof (effConn self connArg) ≠ "object" then
    .thrownNoConnection
  else
    .dispatched (effConn self connArg) data

end RequestModel

section ConnectionStateMachine

/-! ## `Connection` state machine (`connect` / `_establishNewConnection` /
`disconnect`, `src/lib/classes/Connection.js`) -/

/-- `CONNECTION_STATE` (`src/lib/enums/CONNECTION_STATE.js`). -/
inductive ConnState where
  | disconnected
  | connecting
  | connected
  deriving Repr, DecidableEq

/-- The connection-machine portion of a `Connection` instance: its `_state`,
the number of `adapter.connect` invocations made so far, and the number of
waiter promises attached by `connect()` calls that arrived while a connect
attempt was in flight (each waiter has its `resolve` registered on the
`connect` event and its `reject` on the `connectionFail` event). -/
structure ConnMachine where
  state : ConnState
  adapterConnectCalls : Nat := 0
  waiters : Nat := 0
  deriving Repr, DecidableEq

/-- The promise a `connect()` call hands back to its caller:
`immediate` — `Promise.resolve()` (already connected);
`attempt` — the promise chain of `_establishNewConnection`;
`waiter` — the event-wired promise built while `Connecting`. -/
inductive ConnectPromise where
  | immediate
  | attempt
  | waiter
  deriving Repr, DecidableEq

/-- `connection.connect()`: already connected → resolved promise, no calls;
already connecting → attach a waiter to the `connect`/`connectionFail`
events, no adapter call; otherwise `_establishNewConnection` — state moves
to `Connecting` and `adapter.connect(url)` is invoked once. -/
def Connection.connect (c : ConnMachine) : ConnMachine × ConnectPromise :=
  match c.state with
  | .connected => (c, .immediate)
  | .connecting => ({ c with waiters := c.waiters + 1 }, .waiter)
  | .disconnected =>
    ({ c with state := .connecting,
              adapterConnectCalls := c.adapterConnectCalls + 1 }, .attempt)

/-- Settlement of the in-flight `adapter.connect` promise, following the two
handlers in `_establishNewConnection`: on success the state becomes
`Connected` and the `connect` event is triggered; on failure the state
becomes `Disconnected` and the `connectionFail` event is triggered. The
returned list is the events fired, in order. -/
def Connection.settleConnect (c : ConnMachine) (ok : Bool) :
    ConnMachine × List String :=
  if ok then
    ({ c with state := .connected }, ["connect"])
  else
    ({ c with state := .disconnected }, ["connectionFail"])

/-- Settlement observed by the holder of a `connect()` promise once the
in-flight attempt settles with `ok`, given the events that firing produced:
the attempt chain resolves/rejects with no payload per its handlers
(`return Promise.resolve()` / `return Promise.reject()`); a waiter resolves
when the `connect` event fires and rejects when `connectionFail` fires; an
immediate promise is already resolved. -/
def ConnectPromise.settle (p : ConnectPromise) (events : List String)
    (ok : Bool) : POutcome :=
  match p with
  | .immediate => .resolved .undef
  | .attempt => if ok then .resolved .undef else .rejected .undef
  | .waiter =>
    if "connect" ∈ events then .resolved .undef
    else if "connectionFail" ∈ events then .rejected .undef
    else (POutcome.resolved JVal.undef)

/-- Result of `connection.disconnect()`: the new state, the adapter
capabilities invoked (in order), the warnings logged, and the settlement of
the returned promise. -/
structure DisconnectResult where
  state : ConnState
  calls : List String
  warnings : List String
  outcome : POutcome
  deriving Repr, DecidableEq

/-- `connection.disconnect()`: unconditionally calls
`this.adapter.disconnect()` (no state guard, and no `url` argument — the
slot receives `undefined`); the single `.then` fulfilled-handler sets the
state to `Disconnected` and resolves; an adapter rejection has no handler,
so it propagates and the state is left untouched. -/
def Connection.disconnect (st : ConnState) (a : AdapterImpl) :
    DisconnectResult :=
  let (warns, out) := Adapter.callDisconnect a .undef
  match out with
  | .resolved _ => ⟨.disconnected, ["disconnect"], warns, .resolved .undef⟩
  | .rejected e => ⟨st, ["disconnect"], warns, .rejected e⟩

end ConnectionStateMachine

section ConnectionDispatch

/-! ## `Connection.request` and the verb helpers
(`src/lib/classes/Connection.js`) -/

/-- The external `frntnd-route-util` collaborator: a pure route-templating
function pair (`fillRouteWithPathVariables`, `concatenateBaseUrlAndUrl`),
passed in as a parameter since its internals are outside this core. -/
structure RouteUtil where
  fillRouteWithPathVariables : String → JVal → String
  concatenateBaseUrlAndUrl : String → String → String

/-- The fields of a `Connection` instance that dispatch reads: its options
`url` and its resolved `adapter`. -/
structure ConnectionObj where
  url : String
  adapter : AdapterImpl

/-- `Connection._prepareRequest(request, data)`: fill the route template
from `data`, concatenate onto the connection's base url, and package
`{url, method, data, request}`. -/
def Connection.prepareRequest (ru : RouteUtil) (conn : ConnectionObj)
    (req : ReqOptions) (data : JVal) (reqRef : Nat) : PreparedReq :=
  { url := ru.concatenateBaseUrlAndUrl conn.url
      (ru.fillRouteWithPathVariables
        (match req.route with | .str r => r | _ => "") data),
    method := req.method,
    data := data,
    requestRef := reqRef }

/-- The settled result of a dispatch that got past validation. -/
structure DispatchResult where
  calls : List String
  warnings : List String
  outcome : POutcome

/-- `connection.request(request, data)`: validate the blueprint (a
synchronous throw on failure — `Request.validateImplementation` is invoked
before anything touches the adapter; the second argument `true` passed at
this call site is not a parameter of the module class's validator and is
ignored), prepare the wire request, dispatch to `adapter.upload` or
`adapter.request` per the blueprint's `upload` flag, then post-process with
`handleResolve` / `handleReject`: a function-valued `resolve` hook maps the
payload, otherwise the payload passes through; a function-valued `reject`
hook maps the rejection payload, otherwise the handler returns `undefined`
— which settles the `.then` chain as a resolution with `undefined`. -/
def Connection.request (ru : RouteUtil) (requests connections : Registry)
    (conn : ConnectionObj) (req : ReqOptions) (data : JVal) (reqRef : Nat) :
    Except ReqErr DispatchResult :=
  match Request.validateImplementation requests connections req with
  | some e => .error e
  | none =>
    let prepared := Connection.prepareRequest ru conn req data reqRef
    let (call, warns, adOut) :=
      if req.upload then
        let (w, o) := Adapter.callUpload conn.adapter prepared
        ("upload", w, o)
      else
        let (w, o) := Adapter.callRequest conn.adapter prepared
        ("request", w, o)
    let outcome :=
      match adOut with
      | .resolved v =>
        match req.resolveHook with
        | some h => (h v).settle
        | none => .resolved v
      | .rejected e =>
        match req.rejectHook with
        | some h => (h e).settle
        | none => .resolved .undef
    .ok ⟨[call], warns, outcome⟩

/-- `connection.get(route, data)`: dispatch of the anonymous blueprint
`{method: 'GET', route}` through `connection.request`. -/
def Connection.getVerb (ru : RouteUtil) (requests connections : Registry)
    (conn : ConnectionObj) (route : String) (data : JVal) :
    Except ReqErr DispatchResult :=
  Connection.request ru requests connections conn
    { name := .undef, method := .str "GET", route := .str route } data 0

end ConnectionDispatch

section CommunicatorModel

/-! ## `Communicator` facade (`src/lib/classes/Communicator.js`) -/

/-- `new Connection(options)` up to registration: `Connection.get(options.name)`
returns an already-registered instance outright (before any validation);
otherwise `_register(options)` runs `Connection.validateImplementation`
(throwing on failure, before any registry mutation) and then inserts the
fresh instance. Result: the connection registry, the next fresh id, and the
thrown error or the returned instance id. The nested
`options.adapters`/`options.requests` convenience registration is not
modelled (the verified properties pass option bags without those fields). -/
def Connection.construct (adapters connections : Registry) (nextId : Nat)
    (o : ConnOptions) : Registry × Nat × Except ConnErr Nat :=
  match (match o.name with | .str n => connections.find n | _ => none) with
  | some i => (connections, nextId, .ok i)
  | none =>
    match Connection.validateImplementation adapters o with
    | some e => (connections, nextId, .error e)
    | none =>
      match o.name with
      | .str n => (connections.insert n nextId, nextId + 1, .ok nextId)
      | _ => (connections, nextId, .error (.invalid "name is not a string"))

/-- The `singletons/config` object: the process-wide defaults the facade
tracks. Fields are raw values (`undefined` when never set), tested with
JavaScript truthiness. -/
structure CommConfig where
  defaultAdapter : JVal := .undef
  defaultConnection : JVal := .undef
  deriving Repr, DecidableEq

/-- `Communicator.registerConnection(connection)` (static): first
`if (!_config.defaultConnection) _config.defaultConnection = connection.name`,
then the `Connection` registration path (validation and insertion as in
`Connection.construct`; in the facade variant that spells the delegation
out, `new Connection(connection)`). Note the default-connection write
happens before validation runs. -/
def Communicator.registerConnection (cfg : CommConfig)
    (adapters connections : Registry) (nextId : Nat) (o : ConnOptions) :
    CommConfig × Registry × Nat × Except ConnErr Nat :=
  let cfg1 := if jTruthy cfg.defaultConnection then cfg
              else { cfg with defaultConnection := o.name }
  let r := Connection.construct adapters connections nextId o
  (cfg1, r.1, r.2.1, r.2.2)

end CommunicatorModel

/-! ## Verified properties -/

/-- C5 counterexample: a `Connection` candidate whose `name` is the number
`42` (present but not a string) and whose `adapter` and `url` are missing is
rejected with the InvalidProperty error for `name`, not with the
MissingProperty error for `adapter` — required-field presence of *all*
fields is not checked before types; validation walks field by field. -/
theorem connValidate_name_type_beats_adapter_presence :
    Connection.validateImplementation ([] : Registry)
        ⟨.num 42, .undef, .undef⟩ = some (.invalid "name is not a string") ∧
    Connection.validateImplementation ([] : Registry)
        ⟨.num 42, .undef, .undef⟩ ≠ some (.missing "no adapter provided") := by
  constructor
  · rfl
  · decide

/-- C5 (amended): `Connection.validateImplementation` reports the first
violated rule of the fixed *per-field* order — name presence, name type,
adapter presence, adapter type, adapter registeredness, url presence, url
type — with presence violations raising MissingProperty errors and
type/cross-reference violations raising InvalidProperty errors, and with no
uniqueness rule (re-registration under an existing name returns the
existing instance instead). `connValidationOrder` is that rule list. -/
theorem connValidate_eq_firstViolated_per_field (adapters : Registry)
    (o : ConnOptions) :
    Connection.validateImplementation adapters o
      = firstViolated (connValidationOrder adapters) o := by
  simp only [Connection.validateImplementation, connValidationOrder,
    firstViolated, decide_eq_true_eq]

/-- C4: registering a second `Adapter` under an already-taken name throws
the uniqueness error (`Error: Can't register adapter, adapter with this
name already exists`) and leaves the adapter registry exactly as it was —
the original instance `i` remains the one registered under the name. -/
theorem adapter_register_duplicate_rejected (adapters : Registry)
    (nextId i : Nat) (name : String) (h : adapters.find name = some i) :
    Adapter.register adapters nextId name
        = (adapters, .error (.duplicateName name)) ∧
    adapters.find name = some i := by
  refine ⟨?_, h⟩
  simp [Adapter.register, h]

/-- C4 witness: with `"XHR"` registered as instance `0`, a second
registration of `"XHR"` errors and the registry still maps `"XHR"` to `0`. -/
theorem adapter_register_duplicate_rejected_witness :
    Adapter.register [("XHR", 0)] 1 "XHR"
        = ([("XHR", 0)], .error (.duplicateName "XHR")) ∧
    Registry.find [("XHR", 0)] "XHR" = some 0 :=
  adapter_register_duplicate_rejected [("XHR", 0)] 1 0 "XHR" (by rfl)

/-- C9: for every adapter options bag, each omitted capability slot is
replaced by the `resolveFn` stand-in: calling it logs exactly one warning
naming the missing capability and the adapter, and returns a promise that
resolves with no payload (it is `resolved`, hence never a rejection). -/
theorem omitted_capability_warns_and_resolves (a : AdapterImpl) :
    (a.connect = none → ∀ arg, Adapter.callConnect a arg
      = (["connect method not implemented on adapter " ++ a.name],
         .resolved .undef)) ∧
    (a.disconnect = none → ∀ arg, Adapter.callDisconnect a arg
      = (["disconnect method not implemented on adapter " ++ a.name],
         .resolved .undef)) ∧
    (a.request = none → ∀ arg, Adapter.callRequest a arg
      = (["request method not implemented on adapter " ++ a.name],
         .resolved .undef)) ∧
    (a.upload = none → ∀ arg, Adapter.callUpload a arg
      = (["upload method not implemented on adapter " ++ a.name],
         .resolved .undef)) ∧
    (a.subscribe = none → ∀ arg, Adapter.callSubscribe a arg
      = (["subscribe method not implemented on adapter " ++ a.name],
         .resolved .undef)) ∧
    (a.unsubscribe = none → ∀ arg, Adapter.callUnsubscribe a arg
      = (["unsubscribe method not implemented on adapter " ++ a.name],
         .resolved .undef)) := by
  refine ⟨fun h arg => ?_, fun h arg => ?_, fun h arg => ?_,
          fun h arg => ?_, fun h arg => ?_, fun h arg => ?_⟩ <;>
    simp [Adapter.callConnect, Adapter.callDisconnect, Adapter.callRequest,
      Adapter.callUpload, Adapter.callSubscribe, Adapter.callUnsubscribe,
      resolveFn, h]

/-- C9 witness: an adapter registered as just `{name: 'NOOP'}` — no
`subscribe` implementation — answers `subscribe('x')` with a successful
empty resolution after logging the warning. -/
theorem omitted_capability_warns_and_resolves_witness :
    Adapter.callSubscribe { name := "NOOP" } (.str "x")
      = (["subscribe method not implemented on adapter NOOP"],
         .resolved .undef) :=
  (omitted_capability_warns_and_resolves { name := "NOOP" }).2.2.2.2.1
    rfl (.str "x")

/-- C1: constructing a `Request` under a name that is already registered
returns the originally registered instance (same id), leaves the request
registry and the id supply unchanged, and validates nothing of the new
options beyond the name check — `o2`'s method, route, connection and hooks
are arbitrary. Stated for any second registration following a successful
first one with the same name, so registering the same name twice always
yields the same instance. -/
theorem request_reregistration_returns_original
    (requests connections : Registry) (nextId : Nat) (o1 o2 : ReqOptions)
    (i : Nat) (requests1 : Registry) (nid1 : Nat)
    (hname : o2.name = o1.name)
    (h1 : Request.construct requests connections nextId o1
            = (requests1, nid1, .ok i)) :
    Request.construct requests1 connections nid1 o2
      = (requests1, nid1, .ok i) := by
  unfold Request.construct at h1 ⊢
  cases hv : Request.validateImplementation requests connections o1 with
  | some e => rw [hv] at h1; simp at h1
  | none =>
    rw [hv] at h1
    cases hn : o1.name with
    | str n =>
      rw [hn] at h1
      have hstr : jTypeof o2.name = "string" := by rw [hname, hn]; rfl
      cases hf : requests.find n with
      | some j =>
        simp only [hf, Prod.mk.injEq, Except.ok.injEq] at h1
        obtain ⟨hr, hnid, hi⟩ := h1
        subst hr hnid hi
        have hval2 : Request.validateImplementation requests connections o2
            = none := by
          unfold Request.validateImplementation
          rw [hname, hn]
          simp [jTypeof, hf]
        simp [hval2, hname, hn, hf]
      | none =>
        simp only [hf, Prod.mk.injEq, Except.ok.injEq] at h1
        obtain ⟨hr, hnid, hi⟩ := h1
        subst hr hnid hi
        have hfind : (requests.insert n nextId).find n = some nextId :=
          Registry.find_insert_self requests n nextId
        have hval2 : Request.validateImplementation
            (requests.insert n nextId) connections o2 = none := by
          unfold Request.validateImplementation
          rw [hname, hn]
          simp [jTypeof, hfind]
        simp [hval2, hname, hn, hfind]
    | undef => rw [hn] at h1; simp at h1
    | null => rw [hn] at h1; simp at h1
    | num m => rw [hn] at h1; simp at h1
    | bool b => rw [hn] at h1; simp at h1
    | obj id => rw [hn] at h1; simp at h1
    | connRef id => rw [hn] at h1; simp at h1
    | adapterRef id => rw [hn] at h1; simp at h1

/-- C1 witness: after registering `"UserRequest"` (instance `0`), a second
registration under the same name with a numeric `method` and a missing
`route` — a payload that would fail validation if it were checked — still
returns instance `0` and leaves the registry untouched. -/
theorem request_reregistration_returns_original_witness :
    Request.construct [("UserRequest", 0)] [] 1
        { name := .str "UserRequest", method := .num 7, route := .undef }
      = ([("UserRequest", 0)], 1, .ok 0) :=
  request_reregistration_returns_original [] [] 0
    { name := .str "UserRequest", method := .str "get", route := .str "/u" }
    { name := .str "UserRequest", method := .num 7, route := .undef }
    0 [("UserRequest", 0)] 1 rfl (by rfl)

/-- C2: a `connect()` call arriving while a connect attempt is in flight is
coalesced. Starting disconnected, the first `connect()` moves the machine
to `Connecting` and makes the one and only `adapter.connect` call; the
second `connect()`, arriving while `Connecting`, makes no further adapter
call and hands back an event-wired waiter promise; when the in-flight
attempt settles, firing the `connect`/`connectionFail` event, both callers
observe the same outcome — both resolve on success and both reject on
failure. -/
theorem connect_while_connecting_coalesces (c : ConnMachine)
    (h : c.state = .disconnected) :
    (Connection.connect c).2 = .attempt ∧
    (Connection.connect (Connection.connect c).1).2 = .waiter ∧
    (Connection.connect (Connection.connect c).1).1.adapterConnectCalls
      = c.adapterConnectCalls + 1 ∧
    ∀ ok : Bool,
      ConnectPromise.settle (Connection.connect c).2
          (Connection.settleConnect
            (Connection.connect (Connection.connect c).1).1 ok).2 ok
        = (if ok then POutcome.resolved .undef else POutcome.rejected .undef) ∧
      ConnectPromise.settle
          (Connection.connect (Connection.connect c).1).2
          (Connection.settleConnect
            (Connection.connect (Connection.connect c).1).1 ok).2 ok
        = (if ok then POutcome.resolved .undef else POutcome.rejected .undef) := by
  obtain ⟨st, calls, w⟩ := c
  simp only at h
  subst h
  refine ⟨rfl, rfl, rfl, fun ok => ?_⟩
  cases ok <;> simp [Connection.connect, Connection.settleConnect,
    ConnectPromise.settle]

/-- C2 witness: from a fresh disconnected machine, two overlapping
`connect()` calls produce exactly one `adapter.connect` invocation, the
second call gets a waiter promise, and on a failed settlement both promises
reject. -/
theorem connect_while_connecting_coalesces_witness :
    (Connection.connect (Connection.connect ⟨.disconnected, 0, 0⟩).1).2
      = ConnectPromise.waiter ∧
    (Connection.connect (Connection.connect ⟨.disconnected, 0, 0⟩).1).1.adapterConnectCalls
      = 1 ∧
    ConnectPromise.settle (Connection.connect ⟨.disconnected, 0, 0⟩).2
        (Connection.settleConnect
          (Connection.connect
            (Connection.connect ⟨.disconnected, 0, 0⟩).1).1 false).2 false
      = POutcome.rejected .undef :=
  ⟨(connect_while_connecting_coalesces ⟨.disconnected, 0, 0⟩ rfl).2.1,
   (connect_while_connecting_coalesces ⟨.disconnected, 0, 0⟩ rfl).2.2.1,
   ((connect_while_connecting_coalesces ⟨.disconnected, 0, 0⟩ rfl).2.2.2
      false).1⟩

/-- C6 counterexample: a `Request` with no bound `Connection`, executed with
an override that is a plain object (not a `Connection` instance), does not
throw — the guard only tests `connection === null || typeof connection !==
'object'`, which a plain object passes, so the call is dispatched to the
override's `request` method instead of failing. -/
theorem execute_plain_object_override_not_thrown :
    Request.execute ⟨0, .undef⟩ (.obj 1) (some (.obj 3))
      = .dispatched (.obj 3) (.obj 1) ∧
    ExecOutcome.dispatched (.obj 3) (.obj 1) ≠ .thrownNoConnection := by
  exact ⟨rfl, by decide⟩

/-- C6 (amended): `execute(data, connection?)` throws the synchronous
RuntimeFailure-kind `Error` — before any adapter call — exactly when the
effective connection (the override when one is passed and not `undefined`,
else the bound connection) is `null` or not of JavaScript type "object";
any non-null object, `Connection` instance or not, passes the guard and
receives the dispatch. With no bound connection and no override the
effective connection is `undefined`, so the call throws. -/
theorem execute_guard_characterisation (self : RequestObj) (data : JVal)
    (connArg : Option JVal) :
    (Request.execute self data connArg = .thrownNoConnection
      ↔ (effConn self connArg = .null
          ∨ jTypeof (effConn self connArg) ≠ "object")) ∧
    (¬ (effConn self connArg = .null
          ∨ jTypeof (effConn self connArg) ≠ "object")
      → Request.execute self data connArg
          = .dispatched (effConn self connArg) data) := by
  unfold Request.execute effConn
  constructor
  · constructor
    · intro h
      by_contra hc
      rw [if_neg hc] at h
      exact ExecOutcome.noConfusion h
    · intro h
      rw [if_pos h]
  · intro h
    rw [if_neg h]

/-- C6 amended-claim witness: a request bound to `Connection` instance `2`,
executed with no override, passes the guard and dispatches to that
connection; a request with no bound connection and no override throws. -/
theorem execute_guard_characterisation_witness :
    Request.execute ⟨0, .connRef 2⟩ (.obj 1) none
      = .dispatched (.connRef 2) (.obj 1) ∧
    Request.execute ⟨0, .undef⟩ (.obj 1) none = .thrownNoConnection :=
  ⟨(execute_guard_characterisation ⟨0, .connRef 2⟩ (.obj 1) none).2
      (by decide),
   (execute_guard_characterisation ⟨0, .undef⟩ (.obj 1) none).1.mpr
      (by decide)⟩

/-- An adapter whose `disconnect` capability rejects, used to exercise the
failure path of `Connection.disconnect`. -/
def rejectingDisconnectAdapter : AdapterImpl :=
  { name := "REJ", disconnect := some (fun _ => .rejected (.str "boom")) }

/-- C7 counterexample: on a connected `Connection` whose adapter's
`disconnect` rejects, `disconnect()` does call the adapter, but the state
stays `Connected` — the transition to `Disconnected` happens only in the
fulfilled `.then` handler, so it is not unconditional on settlement. -/
theorem disconnect_reject_leaves_state :
    (Connection.disconnect .connected rejectingDisconnectAdapter).state
      = .connected ∧
    ConnState.connected ≠ .disconnected ∧
    (Connection.disconnect .connected rejectingDisconnectAdapter).outcome
      = .rejected (.str "boom") := by
  exact ⟨rfl, by decide, rfl⟩

/-- C7 (amended): `disconnect()` invokes `Adapter.disconnect` from every
state, with no state guard — disconnecting while already disconnected still
calls the adapter. When the adapter call resolves, the state becomes
`Disconnected` and the returned promise resolves; when it rejects, the
rejection propagates and the state is left exactly as it was. -/
theorem disconnect_always_calls_adapter (st : ConnState) (a : AdapterImpl) :
    (Connection.disconnect st a).calls = ["disconnect"] ∧
    (∀ v, (Adapter.callDisconnect a .undef).2 = .resolved v →
      (Connection.disconnect st a).state = .disconnected ∧
      (Connection.disconnect st a).outcome = .resolved .undef) ∧
    (∀ e, (Adapter.callDisconnect a .undef).2 = .rejected e →
      (Connection.disconnect st a).state = st ∧
      (Connection.disconnect st a).outcome = .rejected e) := by
  unfold Connection.disconnect
  cases hc : Adapter.callDisconnect a .undef with
  | mk warns out =>
    cases out with
    | resolved v =>
      refine ⟨rfl, fun w hw => ⟨rfl, rfl⟩, fun e he => ?_⟩
      simp at he
    | rejected e =>
      refine ⟨rfl, fun w hw => ?_, fun x hx => ?_⟩
      · simp at hw
      · simp at hx
        subst hx
        exact ⟨rfl, rfl⟩

/-- C7 amended-claim witness: an adapter with no `disconnect` slot (the
stand-in resolves) disconnects a disconnected connection — the adapter is
still called and the state is `Disconnected`; the rejecting adapter leaves
a connected connection connected. -/
theorem disconnect_always_calls_adapter_witness :
    (Connection.disconnect .disconnected { name := "NOOP" }).calls
      = ["disconnect"] ∧
    (Connection.disconnect .disconnected { name := "NOOP" }).state
      = .disconnected ∧
    (Connection.disconnect .connected rejectingDisconnectAdapter).state
      = .connected :=
  ⟨(disconnect_always_calls_adapter .disconnected { name := "NOOP" }).1,
   ((disconnect_always_calls_adapter .disconnected { name := "NOOP" }).2.1
      .undef rfl).1,
   ((disconnect_always_calls_adapter .connected
      rejectingDisconnectAdapter).2.2 (.str "boom") rfl).1⟩

/-- A trivial instantiation of the external route-templating collaborator,
used for concrete dispatch evaluations. -/
def plainRouteUtil : RouteUtil :=
  { fillRouteWithPathVariables := fun r _ => r,
    concatenateBaseUrlAndUrl := fun b u => b ++ u }

/-- An adapter whose `request` capability rejects with the payload `"E"`. -/
def rejectingRequestAdapter : AdapterImpl :=
  { name := "REJ", request := some (fun _ => .rejected (.str "E")) }

/-- C3 counterexample: a dispatch through `Connection.request` of a plain
blueprint with no `reject` function, whose adapter `request` rejects with
payload `"E"`, returns a promise that RESOLVES with `undefined` — the
rejection handler `handleReject` returns `undefined` when
`typeof request.reject !== 'function'`, converting the rejection into a
resolution and dropping the payload, instead of passing the rejection
through to the caller. -/
theorem request_reject_no_hook_swallowed :
    Connection.request plainRouteUtil [] []
        ⟨"http://h", rejectingRequestAdapter⟩
        { name := .str "n", method := .str "get", route := .str "/r" }
        (.obj 0) 0
      = .ok ⟨["request"], [], .resolved .undef⟩ ∧
    POutcome.resolved .undef ≠ .rejected (.str "E") := by
  exact ⟨rfl, by decide⟩

/-- C3 (amended): what an adapter rejection with payload `e` becomes under
`Connection.request` depends on the shape of the blueprint's `reject`
property. A constructed `Request` instance always carries the prototype
default `reject(data) { return Promise.reject(data) }`, so a Request with
no user-supplied reject hook passes the rejection through unchanged; a
plain blueprint without a `reject` function has the rejection swallowed —
the returned promise resolves with `undefined` and the payload is
dropped. -/
theorem request_reject_hook_dependence
    (requests connections : Registry) (conn : ConnectionObj)
    (ru : RouteUtil) (req : ReqOptions) (data : JVal) (reqRef : Nat)
    (e : JVal) (f : PreparedReq → POutcome)
    (hval : Request.validateImplementation requests connections req = none)
    (hupload : req.upload = false)
    (hslot : conn.adapter.request = some f)
    (hrej : ∀ p, f p = .rejected e) :
    (req.rejectHook = some Request.defaultReject →
      Connection.request ru requests connections conn req data reqRef
        = .ok ⟨["request"], [], .rejected e⟩) ∧
    (req.rejectHook = none →
      Connection.request ru requests connections conn req data reqRef
        = .ok ⟨["request"], [], .resolved .undef⟩) := by
  unfold Connection.request Adapter.callRequest
  rw [hval, hupload, hslot]
  constructor <;> intro hh <;>
    simp [hrej, hh, Request.defaultReject, PendingResult.settle]

/-- C3 amended-claim witness: with the default reject method in place (as
on every constructed Request), the `"E"` rejection passes through
unchanged; the no-function case resolves with `undefined`. -/
theorem request_reject_hook_dependence_witness :
    Connection.request plainRouteUtil [] []
        ⟨"http://h", rejectingRequestAdapter⟩
        { name := .str "n", method := .str "get", route := .str "/r",
          rejectHook := some Request.defaultReject }
        (.obj 0) 0
      = .ok ⟨["request"], [], .rejected (.str "E")⟩ :=
  (request_reject_hook_dependence [] [] ⟨"http://h", rejectingRequestAdapter⟩
      plainRouteUtil
      { name := .str "n", method := .str "get", route := .str "/r",
        rejectHook := some Request.defaultReject }
      (.obj 0) 0 (.str "E") (fun _ => .rejected (.str "E"))
      (by rfl) rfl rfl (fun _ => rfl)).1 rfl

/-- C8: evaluation of the verb-helper path at a concrete input. On a
registered connection, `connection.get('/user/:id', data)` — which
dispatches the anonymous blueprint `{method: 'GET', route}` through
`connection.request` — throws synchronously from
`Request.validateImplementation` because the blueprint has no `name`
(the `true` runtime argument passed at the `Connection.request` call site
is not a parameter of the module class's validator). The throw happens
before the adapter is consulted, so the call never reaches
`Adapter.request`, contradicting the helper-usage examples in
`Connection.js` and the expectations in `test/lib/classes/Connection.spec.js`
(which expect only missing-route / missing-method / invalid-method errors
from runtime blueprints). -/
theorem verb_helper_throws_on_missing_name :
    Connection.getVerb plainRouteUtil [] []
        ⟨"http://h:1", rejectingRequestAdapter⟩ "/user/:id" (.obj 0)
      = .error .nameNotString := by
  rfl

/-- C10: `Communicator.registerConnection(spec)` writes
`config.defaultConnection = spec.name` before the `Connection` registration
path validates `spec`; when no default connection was configured and the
registration throws a validation error, `config.defaultConnection` is left
holding the invalid spec's name while the connection registry is unchanged
— the failed registration is not all-or-nothing with respect to the
default-connection configuration. -/
theorem register_connection_sets_default_before_validation
    (cfg : CommConfig) (adapters connections : Registry) (nextId : Nat)
    (o : ConnOptions) (e : ConnErr)
    (hdef : jTruthy cfg.defaultConnection = false)
    (herr : (Communicator.registerConnection cfg adapters connections
              nextId o).2.2.2 = .error e) :
    (Communicator.registerConnection cfg adapters connections nextId o).1.defaultConnection
      = o.name ∧
    (Communicator.registerConnection cfg adapters connections nextId o).2.1
      = connections := by
  obtain ⟨nm, ad, u⟩ := o
  unfold Communicator.registerConnection at herr ⊢
  rw [hdef]
  refine ⟨rfl, ?_⟩
  simp only at herr ⊢
  unfold Connection.construct at herr ⊢
  cases nm with
  | str n =>
    cases hf : connections.find n with
    | some i => simp [hf] at herr
    | none =>
      simp only [hf] at herr ⊢
      cases hv : Connection.validateImplementation adapters ⟨.str n, ad, u⟩ with
      | some e2 => simp [hv]
      | none => simp [hv] at herr
  | undef =>
    cases hv : Connection.validateImplementation adapters ⟨.undef, ad, u⟩ <;>
      simp [hv]
  | null =>
    cases hv : Connection.validateImplementation adapters ⟨.null, ad, u⟩ <;>
      simp [hv]
  | num m =>
    cases hv : Connection.validateImplementation adapters ⟨.num m, ad, u⟩ <;>
      simp [hv]
  | bool b =>
    cases hv : Connection.validateImplementation adapters ⟨.bool b, ad, u⟩ <;>
      simp [hv]
  | obj id =>
    cases hv : Connection.validateImplementation adapters ⟨.obj id, ad, u⟩ <;>
      simp [hv]
  | connRef id =>
    cases hv : Connection.validateImplementation adapters ⟨.connRef id, ad, u⟩ <;>
      simp [hv]
  | adapterRef id =>
    cases hv : Connection.validateImplementation adapters ⟨.adapterRef id, ad, u⟩ <;>
      simp [hv]

/-- C10 witness: with no default connection configured, registering the
invalid spec `{name: 'bad'}` (no adapter, no url) throws the
MissingProperty error for `adapter`, registers nothing — and leaves
`config.defaultConnection` set to `'bad'`. -/
theorem register_connection_sets_default_before_validation_witness :
    (Communicator.registerConnection {} [] [] 0
        ⟨.str "bad", .undef, .undef⟩).1.defaultConnection = .str "bad" ∧
    (Communicator.registerConnection {} [] [] 0
        ⟨.str "bad", .undef, .undef⟩).2.1 = [] :=
  register_connection_sets_default_before_validation {} [] [] 0
    ⟨.str "bad", .undef, .undef⟩ (.missing "no adapter provided")
    rfl (by rfl)
